import Mathlib

/-!
Shallow embedding of the AWS Toolkit MCP server core
(`AwsMcpServer` in `packages/core/src/mcp/server.ts`).

The embedding models the observable state of the server object
(`httpServer`, `connections`, `_closed`, `port`) and its public
operations (`start`, `close`, `closed`, `getAddress`, `getPort`),
together with the tool dispatcher registered in `setupToolHandlers`
(the `list_tools` catalog and the `call_tool` handler).

Environment nondeterminism (whether the OS bind succeeds, which
ephemeral port the OS assigns, whether stopping the listener reports
an error, whether the chat-session collaborator fails) is passed in
explicitly as oracle arguments, so every definition is executable.
JavaScript truthiness defaulting (`x || y`) is modelled explicitly:
`undefined`, `0` and the empty string are falsy.
-/

namespace McpSpec

/-- `McpServerError extends ToolkitError`: the constructor prefixes the
message with `MCP Server: ` and defaults the code to `McpServerError`. -/
structure McpServerError where
  message : String
  code : String
deriving DecidableEq, Repr

/-- `new McpServerError(message)` — every call site in the source omits
the optional code argument, so the code is always `McpServerError`. -/
def McpServerError.ofMessage (message : String) : McpServerError :=
  { message := "MCP Server: " ++ message, code := "McpServerError" }

/-- JavaScript `x || y` on an optional number: `undefined` and `0` are
falsy, so both fall through to the right operand. -/
def jsOrNat (x : Option Nat) (y : Nat) : Nat :=
  match x with
  | none => y
  | some n => if n = 0 then y else n

/-- JavaScript `x || y` on an optional string: `undefined` and the empty
string are falsy, so both fall through to the right operand. -/
def jsOrString (x : Option String) (y : String) : String :=
  match x with
  | none => y
  | some s => if s = "" then y else s

/-- The slice of a Node `http.Server` the class observes: the
`listening` flag and the result of `address()` (the bound port while
listening, `null` otherwise). -/
structure HttpServer where
  listening : Bool
  boundAddress : Option Nat
deriving DecidableEq, Repr

/-- A tracked transport connection (`net.Socket`): an identity plus
whether `destroy()` has been called on it. -/
structure Socket where
  id : Nat
  destroyed : Bool
deriving DecidableEq, Repr

/-- Oracle for the network environment seen by `start`: whether the
bind fails (with the underlying error message) and which port the OS
assigns when port `0` (ephemeral) is requested. -/
structure NetEnv where
  bindError : Option String
  osAssignedPort : Nat
deriving DecidableEq, Repr

/-- The mutable fields of `AwsMcpServer` (lines 26-32 of the source):
`httpServer` starts `undefined`, `connections` starts empty, `_closed`
starts `false`, `port` starts `3000`. -/
structure AwsMcpServer where
  httpServer : Option HttpServer
  connections : List Socket
  _closed : Bool
  port : Nat
deriving DecidableEq, Repr

/-- The state of a freshly constructed singleton. -/
def AwsMcpServer.fresh : AwsMcpServer :=
  { httpServer := none, connections := [], _closed := false, port := 3000 }

/-- `this.httpServer?.listening` coerced to a boolean (optional
chaining yields `undefined`, which is falsy). -/
def AwsMcpServer.listening (s : AwsMcpServer) : Bool :=
  (s.httpServer.map HttpServer.listening).getD false

/-- `getAddress()` — `this.httpServer?.address()`. -/
def AwsMcpServer.getAddress (s : AwsMcpServer) : Option Nat :=
  s.httpServer.bind HttpServer.boundAddress

/-- `getPort()` — the bound port when `address()` returns an object,
otherwise the last configured `this.port`. -/
def AwsMcpServer.getPort (s : AwsMcpServer) : Nat :=
  match s.getAddress with
  | some p => p
  | none => s.port

/-- The `closed` getter — returns `this._closed`. -/
def AwsMcpServer.closed (s : AwsMcpServer) : Bool :=
  s._closed

instance {ε α : Type} [DecidableEq ε] [DecidableEq α] : DecidableEq (Except ε α) := fun a b =>
  match a, b with
  | .ok x, .ok y =>
    if h : x = y then .isTrue (by rw [h]) else .isFalse (by intro hc; cases hc; exact h rfl)
  | .error x, .error y =>
    if h : x = y then .isTrue (by rw [h]) else .isFalse (by intro hc; cases hc; exact h rfl)
  | .ok _, .error _ => .isFalse (by intro hc; cases hc)
  | .error _, .ok _ => .isFalse (by intro hc; cases hc)

/-- Outcome of one `start` call: the updated object state, the
settlement of the returned promise, and the port that was passed to
`listen` (`none` when `listen` was never reached). -/
structure StartResult where
  state : AwsMcpServer
  result : Except McpServerError Unit
  requestedPort : Option Nat
deriving DecidableEq, Repr

/-- `start(port?)` (lines 152-229). Throws `Server already started`
while the listener is active; otherwise `this.port = port || this.port`
(so `0` falls back to the previous port), a fresh `http.Server`
replaces `this.httpServer`, and `listen(this.port, '127.0.0.1')` is
issued: on an `error` event the promise rejects with
`Server failed: <msg>`, on `listening` it resolves. The `connections`
list is not touched by `start`. -/
def AwsMcpServer.start (s : AwsMcpServer) (portArg : Option Nat) (env : NetEnv) :
    StartResult :=
  if s.listening then
    { state := s,
      result := .error (McpServerError.ofMessage "Server already started"),
      requestedPort := none }
  else
    let newPort := jsOrNat portArg s.port
    let s1 : AwsMcpServer := { s with port := newPort }
    match env.bindError with
    | some m =>
      { state := { s1 with httpServer := some { listening := false, boundAddress := none } },
        result := .error (McpServerError.ofMessage ("Server failed: " ++ m)),
        requestedPort := some newPort }
    | none =>
      let bound := if newPort = 0 then env.osAssignedPort else newPort
      { state := { s1 with httpServer := some { listening := true, boundAddress := some bound } },
        result := .ok (),
        requestedPort := some newPort }

/-- The `connection` event handler installed by `start` (lines
206-208): `this.connections.push(connection)`. -/
def AwsMcpServer.onConnection (s : AwsMcpServer) (c : Socket) : AwsMcpServer :=
  { s with connections := s.connections ++ [c] }

/-- One observable step of the shutdown sequence inside `close`. -/
inductive CloseEvent where
  | destroyConnection (id : Nat)
  | stopListener
  | markClosed
deriving DecidableEq, Repr

/-- Outcome of one `close` call: the updated object state, the
settlement of the returned promise, and the ordered trace of shutdown
steps that were performed. -/
structure CloseResult where
  state : AwsMcpServer
  result : Except McpServerError Unit
  events : List CloseEvent
deriving DecidableEq, Repr

/-- `close()` (lines 231-261). If `_closed` is already set the promise
resolves at once and nothing else happens. If the listener is not
active it rejects with `Server not started`. Otherwise every tracked
connection is destroyed, then `httpServer.close(cb)` runs: an error in
the callback rejects with `Failed to close server: <msg>` and leaves
`_closed` untouched; on success `_closed` is set and the promise
resolves. `closeErr` is the oracle for the callback's error argument. -/
def AwsMcpServer.close (s : AwsMcpServer) (closeErr : Option String) : CloseResult :=
  if s._closed then
    { state := s, result := .ok (), events := [] }
  else if !s.listening then
    { state := s,
      result := .error (McpServerError.ofMessage "Server not started"),
      events := [] }
  else
    let destroyed := s.connections.map (fun c => { c with destroyed := true })
    let destroyEvents := s.connections.map (fun c => CloseEvent.destroyConnection c.id)
    match closeErr with
    | some m =>
      { state := { s with connections := destroyed },
        result := .error (McpServerError.ofMessage ("Failed to close server: " ++ m)),
        events := destroyEvents ++ [CloseEvent.stopListener] }
    | none =>
      { state := { s with
          connections := destroyed,
          httpServer := s.httpServer.map (fun h => { h with listening := false, boundAddress := none }),
          _closed := true },
        result := .ok (),
        events := destroyEvents ++ [CloseEvent.stopListener, CloseEvent.markClosed] }

/-- The `message` property entry of `load_chat_session`'s input schema
(lines 68-72): type, description and declared default. -/
structure MessagePropertySchema where
  type : String
  description : String
  default : String
deriving DecidableEq, Repr

/-- The input schema of a tool as declared in the `list_tools` catalog. -/
structure ToolInputSchema where
  type : String
  messageProperty : MessagePropertySchema
  additionalProperties : Bool
deriving DecidableEq, Repr

/-- One entry of the `list_tools` catalog. -/
structure ToolDefinition where
  name : String
  description : String
  inputSchema : ToolInputSchema
deriving DecidableEq, Repr

/-- The static catalog returned by the `list_tools` handler (lines
59-79): a single tool, `load_chat_session`, whose optional `message`
parameter declares the default `Hello world`. -/
def listToolsResult : List ToolDefinition :=
  [{ name := "load_chat_session",
     description := "Opens a new chat session with a greeting message",
     inputSchema :=
       { type := "object",
         messageProperty :=
           { type := "string",
             description := "Optional custom message to start the chat session with",
             default := "Hello world" },
         additionalProperties := false } }]

/-- The declared default of the `message` parameter in the catalog. -/
def catalogMessageDefault : String :=
  ((listToolsResult.head?).map (fun t => t.inputSchema.messageProperty.default)).getD ""

/-- The decoded `arguments` object of a `call_tool` request: an
optional `message` field (`none` models an absent field). -/
structure ToolArguments where
  message : Option String
deriving DecidableEq, Repr

/-- The decoded `request.params` of a `call_tool` request: the tool
`name` and the optional `arguments` object. -/
structure CallToolParams where
  name : String
  arguments : Option ToolArguments
deriving DecidableEq, Repr

/-- One entry of the `content` array of a successful tool response. -/
structure ContentItem where
  type : String
  text : String
deriving DecidableEq, Repr

/-- A successful `call_tool` response payload. -/
structure CallToolResponse where
  content : List ContentItem
deriving DecidableEq, Repr

/-- Outcome of dispatching one `call_tool` request: the messages passed
to the collaborator `loadChatSession` (in order), and the settlement of
the handler (response or thrown `McpServerError`). -/
structure DispatchOutcome where
  invocations : List String
  result : Except McpServerError CallToolResponse
deriving DecidableEq, Repr

/-- The `call_tool` handler registered in `setupToolHandlers` (lines
82-105). For `load_chat_session` the message is
`(args as any)?.message || 'Hello world'` (truthiness defaulting), then
`loadChatSession(message)` is awaited: `loadErr` is the oracle for its
rejection. A rejection is re-thrown as
`Failed to load chat session: <msg>`. Any other tool name throws
`Unknown tool: <name>` without invoking anything. -/
def callToolHandler (request : CallToolParams) (loadErr : Option String) :
    DispatchOutcome :=
  if request.name = "load_chat_session" then
    let message := jsOrString (request.arguments.bind ToolArguments.message) "Hello world"
    match loadErr with
    | some m =>
      { invocations := [message],
        result := .error (McpServerError.ofMessage ("Failed to load chat session: " ++ m)) }
    | none =>
      { invocations := [message],
        result := .ok { content :=
          [{ type := "text",
             text := "Chat session opened with message: \"" ++ message ++ "\"" }] } }
  else
    { invocations := [],
      result := .error (McpServerError.ofMessage ("Unknown tool: " ++ request.name)) }

/-! Concrete fixtures used by witnesses and counterexamples. -/

/-- A cooperating network environment: the bind succeeds, and the OS
would hand out port 54321 if an ephemeral bind were requested. -/
def okNetEnv : NetEnv := { bindError := none, osAssignedPort := 54321 }

/-- State after one successful `start(3000)` on a fresh singleton. -/
def listeningServer : AwsMcpServer :=
  (AwsMcpServer.fresh.start (some 3000) okNetEnv).state

/-- `listeningServer` after one accepted connection (id 7). -/
def trackedServer : AwsMcpServer :=
  listeningServer.onConnection { id := 7, destroyed := false }

/-- State after a successful `close()` on `listeningServer`. -/
def closedServer : AwsMcpServer := (listeningServer.close none).state

/-- State after the restart: a second successful `start(3000)` on
`closedServer`. -/
def restartedServer : AwsMcpServer :=
  (closedServer.start (some 3000) okNetEnv).state

/-! Helper lemmas about the lifecycle operations. -/

/-- `close` on an already-closed server is a complete no-op that
resolves successfully. -/
theorem close_of_closed (s : AwsMcpServer) (e : Option String) (h : s._closed = true) :
    s.close e = { state := s, result := .ok (), events := [] } := by
  simp [AwsMcpServer.close, h]

/-- A successfully resolved `close` always leaves `_closed` set. -/
theorem close_result_ok_closed (s : AwsMcpServer) (e : Option String)
    (h : (s.close e).result = .ok ()) : (s.close e).state._closed = true := by
  by_cases hc : s._closed = true
  · simp [AwsMcpServer.close, hc]
  · have hc' : s._closed = false := by simpa using hc
    by_cases hl : s.listening = true
    · cases e with
      | some m => simp [AwsMcpServer.close, hc', hl] at h
      | none => simp [AwsMcpServer.close, hc', hl]
    · have hl' : s.listening = false := by simpa using hl
      simp [AwsMcpServer.close, hc', hl'] at h

/-- `start` never changes `_closed`. -/
theorem start_preserves_closed (s : AwsMcpServer) (p : Option Nat) (env : NetEnv) :
    (s.start p env).state._closed = s._closed := by
  unfold AwsMcpServer.start
  split
  · rfl
  · cases env.bindError <;> rfl

/-- `start` never changes the tracked `connections` list. -/
theorem start_preserves_connections (s : AwsMcpServer) (p : Option Nat) (env : NetEnv) :
    (s.start p env).state.connections = s.connections := by
  unfold AwsMcpServer.start
  split
  · rfl
  · cases env.bindError <;> rfl

/-- `start` on an active listener is rejected up front and the object
state is left untouched. -/
theorem start_of_listening (s : AwsMcpServer) (p : Option Nat) (env : NetEnv)
    (h : s.listening = true) :
    s.start p env =
      { state := s,
        result := .error (McpServerError.ofMessage "Server already started"),
        requestedPort := none } := by
  simp [AwsMcpServer.start, h]

/-- A successfully resolved `start` leaves the server listening. -/
theorem start_ok_listening (s : AwsMcpServer) (p : Option Nat) (env : NetEnv)
    (h : (s.start p env).result = .ok ()) :
    (s.start p env).state.listening = true := by
  by_cases hl : s.listening = true
  · rw [start_of_listening s p env hl] at h
    simp at h
  · have hl' : s.listening = false := by simpa using hl
    have hl2 : (Option.map HttpServer.listening s.httpServer).getD false = false := hl'
    cases he : env.bindError with
    | some m => simp [AwsMcpServer.start, hl', he] at h
    | none => simp [AwsMcpServer.start, AwsMcpServer.listening, hl2, he]

/-- When the listener is not active and the bind succeeds, `start`
resolves and the server listens. -/
theorem start_ok_of_not_listening (s : AwsMcpServer) (p : Option Nat) (env : NetEnv)
    (hl : s.listening = false) (he : env.bindError = none) :
    (s.start p env).result = .ok () ∧ (s.start p env).state.listening = true := by
  unfold AwsMcpServer.start
  rw [hl]
  simp [he, AwsMcpServer.listening]

/-! Claim theorems. -/

/-- Claim C1, counterexample: the claim quantifies over every server on
which `close()` has resolved successfully. After a restart
(`start`, `close`, `start`) the server is listening but `_closed` is
still `true`, so a further `close()` resolves successfully as a no-op —
yet the subsequent `start()` is rejected with `Server already started`
instead of succeeding. -/
theorem C1_counterexample :
    (AwsMcpServer.fresh.start (some 3000) okNetEnv).result = .ok () ∧
    (listeningServer.close none).result = .ok () ∧
    (closedServer.start (some 3000) okNetEnv).result = .ok () ∧
    (restartedServer.close none).result = .ok () ∧
    ((restartedServer.close none).state.start (some 3000) okNetEnv).result =
      .error (McpServerError.ofMessage "Server already started") := by
  decide

/-- Claim C1, amended: for every server instance on which `close()` has
resolved successfully and whose listener is actually stopped, a
subsequent `start()` (with a successful bind) resolves and the server
is observably listening again — the restart property. -/
theorem C1_restart (s : AwsMcpServer) (e : Option String) (p : Option Nat) (env : NetEnv)
    (hclose : (s.close e).result = .ok ())
    (hstopped : (s.close e).state.listening = false)
    (henv : env.bindError = none) :
    ((s.close e).state.start p env).result = .ok () ∧
    ((s.close e).state.start p env).state.listening = true :=
  start_ok_of_not_listening (s.close e).state p env hstopped henv

/-- Claim C1, witness: the amended restart property at the concrete
first lifecycle (`start(3000)` then `close()` then `start(3000)`). -/
theorem C1_restart_witness :
    (listeningServer.close none).result = .ok () ∧
    (listeningServer.close none).state.listening = false ∧
    okNetEnv.bindError = none ∧
    (((listeningServer.close none).state.start (some 3000) okNetEnv).result = .ok () ∧
     ((listeningServer.close none).state.start (some 3000) okNetEnv).state.listening = true) :=
  ⟨by decide, by decide, by decide,
   C1_restart listeningServer none (some 3000) okNetEnv (by decide) (by decide) (by decide)⟩

/-- Claim C2: `close()` on a server already in the `Closed` state
(`_closed = true`) is a complete no-op — the promise resolves, the
object state is unchanged (so released connections are not
re-terminated), and no shutdown event is performed. -/
theorem C2_close_idempotent (s : AwsMcpServer) (e : Option String)
    (h : s._closed = true) :
    s.close e = { state := s, result := .ok (), events := [] } :=
  close_of_closed s e h

/-- Claim C2, witness: the second `close()` on the concrete closed
server is a successful no-op. -/
theorem C2_close_idempotent_witness :
    closedServer._closed = true ∧
    closedServer.close none = { state := closedServer, result := .ok (), events := [] } :=
  ⟨by decide, C2_close_idempotent closedServer none (by decide)⟩

/-- Claim C3: after a successful `close()` followed by a successful
`start()` (a restart), the `closed` getter still returns `true`
(because `start` never resets `_closed`), and every subsequent
`close()` resolves successfully at once while leaving the state — in
particular the running listener and the tracked connections —
completely untouched. -/
theorem C3_restart_close_noop (s : AwsMcpServer) (e1 e2 : Option String)
    (p : Option Nat) (env : NetEnv)
    (hclose : (s.close e1).result = .ok ())
    (hstart : ((s.close e1).state.start p env).result = .ok ()) :
    ((s.close e1).state.start p env).state.closed = true ∧
    ((s.close e1).state.start p env).state.listening = true ∧
    ((s.close e1).state.start p env).state.close e2 =
      { state := ((s.close e1).state.start p env).state,
        result := .ok (), events := [] } := by
  have h1 : (s.close e1).state._closed = true := close_result_ok_closed s e1 hclose
  have h2 : ((s.close e1).state.start p env).state._closed = true := by
    rw [start_preserves_closed]; exact h1
  exact ⟨h2, start_ok_listening _ _ _ hstart, close_of_closed _ _ h2⟩

/-- Claim C3, witness: the restart scenario at the concrete inputs. -/
theorem C3_restart_close_noop_witness :
    (listeningServer.close none).result = .ok () ∧
    ((listeningServer.close none).state.start (some 3000) okNetEnv).result = .ok () ∧
    (((listeningServer.close none).state.start (some 3000) okNetEnv).state.closed = true ∧
     ((listeningServer.close none).state.start (some 3000) okNetEnv).state.listening = true ∧
     ((listeningServer.close none).state.start (some 3000) okNetEnv).state.close (some "late") =
       { state := ((listeningServer.close none).state.start (some 3000) okNetEnv).state,
         result := .ok (), events := [] }) :=
  ⟨by decide, by decide,
   C3_restart_close_noop listeningServer none (some "late") (some 3000) okNetEnv
     (by decide) (by decide)⟩

/-- Claim C4: `close()` on a listening server that is not already
marked closed performs the strict shutdown order: one destroy event per
tracked connection first (all connections end up destroyed), then the
listener stop, and the `Closed` marking only as the last step on
success; when stopping the listener fails the promise rejects with
`Failed to close server: <msg>` (the `CloseFailed` error) and `_closed`
stays `false`. -/
theorem C4_shutdown_order (s : AwsMcpServer) (e : Option String)
    (hl : s.listening = true) (hc : s._closed = false) :
    (s.close e).events =
      s.connections.map (fun c => CloseEvent.destroyConnection c.id) ++
        CloseEvent.stopListener ::
          (if e.isNone then [CloseEvent.markClosed] else []) ∧
    (s.close e).result =
      (match e with
       | none => .ok ()
       | some m => .error (McpServerError.ofMessage ("Failed to close server: " ++ m))) ∧
    (s.close e).state._closed = e.isNone ∧
    (s.close e).state.connections =
      s.connections.map (fun c => { c with destroyed := true }) := by
  cases e <;> simp [AwsMcpServer.close, hc, hl]

/-- Claim C4, witness: the successful shutdown at the concrete server
with one tracked connection. -/
theorem C4_shutdown_order_witness :
    trackedServer.listening = true ∧
    trackedServer._closed = false ∧
    ((trackedServer.close none).events =
       [CloseEvent.destroyConnection 7, CloseEvent.stopListener, CloseEvent.markClosed] ∧
     (trackedServer.close none).result = .ok () ∧
     (trackedServer.close none).state._closed = true ∧
     (trackedServer.close none).state.connections = [{ id := 7, destroyed := true }]) :=
  ⟨by decide, by decide,
   by simpa using C4_shutdown_order trackedServer none (by decide) (by decide)⟩

/-- Claim C5: `start()` while the listener is currently active is
rejected with `Server already started` (the spec's `AlreadyListening`
error) and the object state — in particular the bound port — is
completely unchanged. -/
theorem C5_start_while_listening (s : AwsMcpServer) (p : Option Nat) (env : NetEnv)
    (hl : s.listening = true) :
    s.start p env =
      { state := s,
        result := .error (McpServerError.ofMessage "Server already started"),
        requestedPort := none } ∧
    (s.start p env).state.getPort = s.getPort := by
  have h := start_of_listening s p env hl
  exact ⟨h, by rw [h]⟩

/-- Claim C5, witness: a second `start(4000)` on the concrete listening
server fails and leaves the bound port 3000 unchanged. -/
theorem C5_start_while_listening_witness :
    listeningServer.listening = true ∧
    (listeningServer.start (some 4000) okNetEnv =
       { state := listeningServer,
         result := .error (McpServerError.ofMessage "Server already started"),
         requestedPort := none } ∧
     (listeningServer.start (some 4000) okNetEnv).state.getPort = listeningServer.getPort) :=
  ⟨by decide, C5_start_while_listening listeningServer (some 4000) okNetEnv (by decide)⟩

/-- Claim C6: a `call_tool` request for `load_chat_session` whose
arguments carry no `message` field (absent arguments object or absent
field) invokes the collaborator `loadChatSession` exactly once, with
exactly the catalog-declared default — the string `Hello world` —
whether or not the collaborator then fails. -/
theorem C6_default_message (request : CallToolParams) (loadErr : Option String)
    (hname : request.name = "load_chat_session")
    (hmsg : request.arguments.bind ToolArguments.message = none) :
    (callToolHandler request loadErr).invocations = [catalogMessageDefault] ∧
    catalogMessageDefault = "Hello world" := by
  refine ⟨?_, rfl⟩
  cases loadErr <;>
    simp [callToolHandler, hname, hmsg, jsOrString, catalogMessageDefault, listToolsResult]

/-- Claim C6, witness: the handler at a concrete request without
arguments. -/
theorem C6_default_message_witness :
    ({ name := "load_chat_session", arguments := none } : CallToolParams).name =
      "load_chat_session" ∧
    ({ name := "load_chat_session", arguments := none } : CallToolParams).arguments.bind
      ToolArguments.message = none ∧
    ((callToolHandler { name := "load_chat_session", arguments := none } none).invocations =
       [catalogMessageDefault] ∧
     catalogMessageDefault = "Hello world") :=
  ⟨by decide, by decide,
   C6_default_message { name := "load_chat_session", arguments := none } none rfl rfl⟩

/-- Claim C7: a `call_tool` request whose name is not in the registry
(the `list_tools` catalog) throws `Unknown tool: <name>` — the message
carries the offending name — and invokes no handler (the collaborator
invocation list is empty). -/
theorem C7_unknown_tool (request : CallToolParams) (loadErr : Option String)
    (hname : request.name ∉ listToolsResult.map ToolDefinition.name) :
    callToolHandler request loadErr =
      { invocations := [],
        result := .error (McpServerError.ofMessage ("Unknown tool: " ++ request.name)) } := by
  have hne : request.name ≠ "load_chat_session" := by
    simpa [listToolsResult] using hname
  simp [callToolHandler, hne]

/-- Claim C7, witness: the handler at the concrete unknown tool name
`delete_bucket`. -/
theorem C7_unknown_tool_witness :
    "delete_bucket" ∉ listToolsResult.map ToolDefinition.name ∧
    callToolHandler { name := "delete_bucket", arguments := none } none =
      { invocations := [],
        result := .error (McpServerError.ofMessage ("Unknown tool: " ++ "delete_bucket")) } :=
  ⟨by decide,
   C7_unknown_tool { name := "delete_bucket", arguments := none } none (by decide)⟩

/-- Claim C8, counterexample: the tracked connection list does not
reset on restart. Connection 7 is accepted under the first listener and
destroyed by `close()`; after the restart and a new connection 9, the
tracked list still contains the carried-over connection 7 — refuting
the claim that it holds only connections accepted under the new
listener. -/
theorem C8_counterexample :
    (trackedServer.close none).result = .ok () ∧
    ((trackedServer.close none).state.start (some 3000) okNetEnv).result = .ok () ∧
    (((trackedServer.close none).state.start (some 3000) okNetEnv).state.onConnection
        { id := 9, destroyed := false }).connections =
      [{ id := 7, destroyed := true }, { id := 9, destroyed := false }] ∧
    ({ id := 7, destroyed := true } : Socket) ∈
      (((trackedServer.close none).state.start (some 3000) okNetEnv).state.onConnection
        { id := 9, destroyed := false }).connections := by
  decide

/-- Claim C8, amended: the tracked connection list belongs to the
server object, not to the listener instance, and is never cleared:
`start` leaves it unchanged and `close` only marks its entries
destroyed (same connections, by id), so after a restart it still
contains every connection accepted under previous listeners. -/
theorem C8_connections_persist (s : AwsMcpServer) (p : Option Nat) (env : NetEnv)
    (e : Option String) :
    (s.start p env).state.connections = s.connections ∧
    (s.close e).state.connections.map Socket.id = s.connections.map Socket.id := by
  refine ⟨start_preserves_connections s p env, ?_⟩
  unfold AwsMcpServer.close
  split
  · rfl
  · split
    · rfl
    · cases e <;> simp [List.map_map, Function.comp]

/-- Claim C9, counterexample: `start(0)` does not bind an ephemeral
port. Because `this.port = port || this.port` treats `0` as falsy, the
port handed to `listen` is the previous configured port `3000`, and the
OS-assigned ephemeral port (54321 in this environment) is never used. -/
theorem C9_counterexample :
    (AwsMcpServer.fresh.start (some 0) okNetEnv).requestedPort = some 3000 ∧
    (AwsMcpServer.fresh.start (some 0) okNetEnv).result = .ok () ∧
    (AwsMcpServer.fresh.start (some 0) okNetEnv).state.getAddress = some 3000 ∧
    okNetEnv.osAssignedPort = 54321 ∧
    (AwsMcpServer.fresh.start (some 0) okNetEnv).state.getPort ≠ okNetEnv.osAssignedPort := by
  decide

/-- Claim C9, amended: `start(0)` treats the argument `0` as absent
(truthiness defaulting), binds the previously configured port — which
is positive, `3000` on a fresh server — and `getPort()` afterwards
returns that positive bound port. -/
theorem C9_port_zero (s : AwsMcpServer) (env : NetEnv)
    (hl : s.listening = false) (he : env.bindError = none) (hp : 0 < s.port) :
    (s.start (some 0) env).requestedPort = some s.port ∧
    (s.start (some 0) env).result = .ok () ∧
    (s.start (some 0) env).state.getPort = s.port ∧
    0 < (s.start (some 0) env).state.getPort := by
  have hne : s.port ≠ 0 := Nat.pos_iff_ne_zero.mp hp
  have hl2 : (Option.map HttpServer.listening s.httpServer).getD false = false := hl
  refine ⟨?_, ?_, ?_, ?_⟩ <;>
    simp [AwsMcpServer.start, AwsMcpServer.listening, hl2, he, jsOrNat, hne,
      AwsMcpServer.getPort, AwsMcpServer.getAddress, hp]

/-- Claim C9, witness: the amended behavior on the fresh server. -/
theorem C9_port_zero_witness :
    AwsMcpServer.fresh.listening = false ∧
    okNetEnv.bindError = none ∧
    0 < AwsMcpServer.fresh.port ∧
    ((AwsMcpServer.fresh.start (some 0) okNetEnv).requestedPort =
       some AwsMcpServer.fresh.port ∧
     (AwsMcpServer.fresh.start (some 0) okNetEnv).result = .ok () ∧
     (AwsMcpServer.fresh.start (some 0) okNetEnv).state.getPort = AwsMcpServer.fresh.port ∧
     0 < (AwsMcpServer.fresh.start (some 0) okNetEnv).state.getPort) :=
  ⟨by decide, by decide, by decide,
   C9_port_zero AwsMcpServer.fresh okNetEnv (by decide) (by decide) (by decide)⟩

/-- Claim C10: a `call_tool` request for `load_chat_session` whose
`message` argument is the empty string — the only falsy string value —
invokes the collaborator with `Hello world` rather than the supplied
empty string, because `(args as any)?.message || 'Hello world'`
defaults by truthiness, not by absence. -/
theorem C10_falsy_message (request : CallToolParams) (loadErr : Option String)
    (hname : request.name = "load_chat_session")
    (hmsg : request.arguments.bind ToolArguments.message = some "") :
    (callToolHandler request loadErr).invocations = ["Hello world"] := by
  cases loadErr <;> simp [callToolHandler, hname, hmsg, jsOrString]

/-- Claim C10, witness: the handler at the concrete request carrying an
empty `message`. -/
theorem C10_falsy_message_witness :
    ({ name := "load_chat_session", arguments := some { message := some "" } } :
        CallToolParams).arguments.bind ToolArguments.message = some "" ∧
    (callToolHandler
        { name := "load_chat_session", arguments := some { message := some "" } }
        none).invocations = ["Hello world"] :=
  ⟨by decide,
   C10_falsy_message
     { name := "load_chat_session", arguments := some { message := some "" } } none rfl rfl⟩

end McpSpec
